import Mathlib

/-!
Verification of the monthly remote-sensing aggregation pipelines of the
Water Hyacinth Assessment in Lake Tana repository.

Each definition below is a shallow embedding of a piece of one of the
Python scripts under the repository root; the doc comment of a definition
names the script and the construct it embeds.  The remote geospatial
service is modelled by explicit environment parameters (functions giving,
per month, the collection size, the reduced scalars, and so on), and a
remote call that may raise is modelled with Except.
-/

namespace LakeTana

/-- Python round(x, 2): rounding to two decimal places, modelled on
rationals (round-half-up; the banker-rounding corner of Python floats is
irrelevant to every statement below, which never evaluates at a tie). -/
def round2 (q : ℚ) : ℚ := (round (q * 100) : ℚ) / 100

/-- Python calendar.isleap, as used via calendar.monthrange in
LakeTana-by-HybridFusion-Radar+Optical-Fusion-FAI+NDVI+SWIR.py and the
radar, rainfall and climate scripts. -/
def isleap (y : Nat) : Bool := y % 4 == 0 && (y % 100 != 0 || y % 400 == 0)

/-- calendar.monthrange(year, month)[1]: the number of days of the month
(Python raises outside 1..12; the catch-all returns 0 and is never used
by the scripts, whose month lists are subsets of [10, 11, 12]). -/
def monthrangeDays (y m : Nat) : Nat :=
  match m with
  | 1 => 31
  | 2 => if isleap y then 29 else 28
  | 3 => 31
  | 4 => 30
  | 5 => 31
  | 6 => 30
  | 7 => 31
  | 8 => 31
  | 9 => 30
  | 10 => 31
  | 11 => 30
  | 12 => 31
  | _ => 0

/-- Zero padding to two digits, as in the Python format {month:02d} and in
datetime.date.isoformat. -/
def pad2 (n : Nat) : String := if n < 10 then "0" ++ toString n else toString n

/-- A calendar date (year, month, day), the value a YYYY-MM-DD string
denotes. -/
structure Date where
  y : Nat
  m : Nat
  d : Nat
deriving DecidableEq

/-- datetime.date(y, m, d).isoformat() for four-digit years, i.e. the
string YYYY-MM-DD (the scripts only form dates with years 2013..2025). -/
def isoformat (dt : Date) : String :=
  toString dt.y ++ "-" ++ pad2 dt.m ++ "-" ++ pad2 dt.d

/-- LakeTana-NDVI-FAI-Sentinel.py, get_ndvi_fai_monthly_s2:
start_date is the string year-month-01 (month zero-padded). -/
def sentinelStartDate (year month : Nat) : String :=
  toString year ++ "-" ++ pad2 month ++ "-01"

/-- LakeTana-NDVI-FAI-Sentinel.py, get_ndvi_fai_monthly_s2:
end_date is year-month-28 when month is not 12, else year-12-31.
The same construction appears in the three Landsat scripts. -/
def sentinelEndDate (year month : Nat) : String :=
  if month ≠ 12 then toString year ++ "-" ++ pad2 month ++ "-28"
  else toString year ++ "-" ++ pad2 month ++ "-31"

/-- LakeTana-by-HybridFusion-Radar+Optical-Fusion-FAI+NDVI+SWIR.py main
loop: start = datetime.date(year, month, 1).isoformat(). -/
def hybridStartDate (year month : Nat) : String := isoformat ⟨year, month, 1⟩

/-- LakeTana-by-HybridFusion-Radar+Optical-Fusion-FAI+NDVI+SWIR.py main
loop: end = datetime.date(year, month, monthrange(year, month)[1]), the
last day of the month; filterDate treats it as an exclusive bound. -/
def hybridEndDate (year month : Nat) : String :=
  isoformat ⟨year, month, monthrangeDays year month⟩

/-- Modelled from the spec: the end bound the spec claims for the
half-open window, namely the first day of the following month
(year-12 maps to the first of January of the next year). -/
def specNextPeriodStart (year month : Nat) : String :=
  if month = 12 then isoformat ⟨year + 1, 1, 1⟩
  else isoformat ⟨year, month + 1, 1⟩

/-- The date value encoded by the Sentinel script end_date string. -/
def sentinelEndTriple (year month : Nat) : Date :=
  if month ≠ 12 then ⟨year, month, 28⟩ else ⟨year, 12, 31⟩

/-- The date value encoded by the hybrid script end string. -/
def hybridEndTriple (year month : Nat) : Date :=
  ⟨year, month, monthrangeDays year month⟩

/-- The date value of the first day of the following month. -/
def nextPeriodStartTriple (year month : Nat) : Date :=
  if month = 12 then ⟨year + 1, 1, 1⟩ else ⟨year, month + 1, 1⟩

/-- LakeTana-Evapotranspiration.py, monthly_stats and monthly_era5_stats:
start = ee.Date.fromYMD(year, month, 1). -/
def etWindowStartTriple (year month : Nat) : Date := ⟨year, month, 1⟩

/-- LakeTana-Evapotranspiration.py, monthly_stats and monthly_era5_stats:
end = start.advance(1, month), the service advancing the calendar month
of the window start by one and rolling December into January of the
next year — the first day of the following month. -/
def etWindowEndTriple (year month : Nat) : Date :=
  if month = 12 then ⟨year + 1, 1, 1⟩ else ⟨year, month + 1, 1⟩

/-- Strict calendar order on dates: lexicographic on (year, month, day). -/
def Date.Lt (a b : Date) : Prop :=
  a.y < b.y ∨ (a.y = b.y ∧ (a.m < b.m ∨ (a.m = b.m ∧ a.d < b.d)))

instance (a b : Date) : Decidable (Date.Lt a b) := by
  unfold Date.Lt
  exact inferInstance

/-!  Band algebra (LakeTana-NDVI-FAI-Sentinel.py compute_ndvi_fai_sentinel,
LakeTana-NDVI-FAI-Landsat.py compute_ndvi_fai, LakeTana-FAI-Landsat.py
compute_fai_landsat).  Per-pixel arithmetic on reflectance values is
modelled on rationals; the geospatial service masks a pixel (no-data)
when a division by zero occurs, which Option models. -/

/-- nir.subtract(red).divide(nir.add(red)): the NDVI of one pixel; the
service yields no-data where the denominator is zero. -/
def ndvi (nir red : ℚ) : Option ℚ :=
  if nir + red = 0 then none else some ((nir - red) / (nir + red))

/-- The FAI of one pixel: slope = (swir - red) * ((nw - rw) / (sw - rw)),
baseline = red + slope, fai = nir - baseline, with sensor wavelength
constants rw, nw, sw (665, 842, 1610 in the Sentinel scripts and
655, 865, 1609 in the Landsat scripts). -/
def fai (nir red swir rw nw sw : ℚ) : ℚ :=
  nir - (red + (swir - red) * ((nw - rw) / (sw - rw)))

/-- fai as a function of the band triple (nir, red, swir) at fixed
wavelength constants. -/
def faiBands (rw nw sw : ℚ) (x : ℚ × ℚ × ℚ) : ℚ :=
  fai x.1 x.2.1 x.2.2 rw nw sw

/-!  Hybrid fusion (LakeTana-by-HybridFusion-Radar+Optical-Fusion-
FAI+NDVI+SWIR.py, main loop).  A binary mask raster is a pixel-indexed
boolean function; getting no mask back (a failed optical request, an
empty radar collection) is Option.none. -/

/-- A binary mask raster, pixel-indexed. -/
def Mask : Type := Nat → Bool

/-- optical_mask.Or(radar_mask): pixelwise union of two masks. -/
def maskOr (a b : Mask) : Mask := fun p => a p || b p

/-- The source strategy label recorded in the Source Used column. -/
inductive SourceUsed where
  | hybridOR
  | radarOnly
  | opticalOnly
deriving DecidableEq

/-- The fusion logic of the hybrid main loop, transliterating the
if/elif chain:
if optical_mask and cloud_pct is not None and cloud_pct < 30 then the
final mask is optical (unioned with radar when radar exists) with label
Hybrid; elif radar_mask then radar with label Radar only; elif
optical_mask then optical with label Optical only; else the month is
skipped (none). -/
def fusionResolve (om : Option Mask) (cp : Option ℚ) (rm : Option Mask) :
    Option (Mask × SourceUsed) :=
  match om, cp, rm with
  | some o, some c, r =>
      if c < 30 then
        some ((match r with | none => o | some rr => maskOr o rr), SourceUsed.hybridOR)
      else
        match r with
        | some rr => some (rr, SourceUsed.radarOnly)
        | none => some (o, SourceUsed.opticalOnly)
  | some _o, none, some rr => some (rr, SourceUsed.radarOnly)
  | some o, none, none => some (o, SourceUsed.opticalOnly)
  | none, _, some rr => some (rr, SourceUsed.radarOnly)
  | none, _, none => none

/-- Modelled from the spec: the precedence rule as the spec words it —
hybrid exactly when the optical quality metric is acceptable (below 30)
AND both masks exist; otherwise whichever single mask exists (radar
preferred, per end-to-end scenario 3); otherwise unresolvable. -/
def specResolve (om : Option Mask) (cp : Option ℚ) (rm : Option Mask) :
    Option (Mask × SourceUsed) :=
  match om, cp, rm with
  | some o, some c, some rr =>
      if c < 30 then some (maskOr o rr, SourceUsed.hybridOR)
      else some (rr, SourceUsed.radarOnly)
  | some o, _, none => some (o, SourceUsed.opticalOnly)
  | none, _, some rr => some (rr, SourceUsed.radarOnly)
  | some _o, none, some rr => some (rr, SourceUsed.radarOnly)
  | none, _, none => none

/-!  The Sentinel-2 NDVI+FAI monthly pipeline
(LakeTana-NDVI-FAI-Sentinel.py, get_ndvi_fai_monthly_s2 and the main
loop).  The remote service answers for a month are gathered in MonthData;
a month whose remote requests fail is an Except.error of the
environment. -/

/-- The remote answers get_ndvi_fai_monthly_s2 consumes for one month:
the filtered collection size, the aggregate mean of
CLOUDY_PIXEL_PERCENTAGE, and the reduceRegion sum stats.get(NDVI)
(area in square metres, none when the reduction has no value). -/
structure MonthData where
  size : Nat
  cloudMean : ℚ
  areaStat : Option ℚ

/-- One output row of the Sentinel-2 NDVI+FAI script. -/
structure S2Record where
  year : Nat
  month : Nat
  dateSelected : String
  cloudCover : ℚ
  areaKm2 : ℚ
deriving DecidableEq

/-- get_ndvi_fai_monthly_s2: returns None when the collection is empty;
returns None when the area reduction yields no value; otherwise builds
the record with start_date, round(cloud, 2) and round(area/1e6, 2). -/
def get_ndvi_fai_monthly_s2 (d : MonthData) (year month : Nat) : Option S2Record :=
  if d.size = 0 then none
  else
    match d.areaStat with
    | none => none
    | some a =>
        some ⟨year, month, sentinelStartDate year month,
              round2 d.cloudMean, round2 (a / 1000000)⟩

/-- The main loop of LakeTana-NDVI-FAI-Sentinel.py: for each (year,
month) pair, try get_ndvi_fai_monthly_s2 — an exception is caught and
the loop continues — and append the result exactly when it is not None.
The environment env gives the remote answers of a month, or the
exception that month raises. -/
def s2Loop (env : Nat → Nat → Except Unit MonthData) :
    List (Nat × Nat) → List S2Record
  | [] => []
  | ym :: rest =>
      (match env ym.1 ym.2 with
       | Except.error _ => []
       | Except.ok d => (get_ndvi_fai_monthly_s2 d ym.1 ym.2).toList)
      ++ s2Loop env rest

/-!  The standalone radar pipeline (LakeTana-Radar-Sentinel-1.py, main
loop).  Sentinel-1 has no cloud metric; the script sets cloud_cover = 0
and stores that number in every appended record. -/

/-- The value of the Cloud Cover Percentage cell of an output row:
either the string N/A or a number. -/
inductive CloudCell where
  | na
  | num (q : ℚ)
deriving DecidableEq

/-- The remote answers the radar loop body consumes for one month: the
filtered collection size, the date of the first image, and the reduced
VH-mask area already divided by 1e6 (km2). -/
structure RadarMonth where
  size : Nat
  dateSelected : String
  areaKm2 : ℚ

/-- One output row of the radar script. -/
structure RadarRecord where
  year : Nat
  month : Nat
  dateSelected : String
  cloudCover : CloudCell
  areaKm2 : ℚ
deriving DecidableEq

/-- The main loop of LakeTana-Radar-Sentinel-1.py: skip the month when
the filtered collection is empty (continue); otherwise append a record
whose Cloud Cover Percentage field holds the literal number 0 set by
cloud_cover = 0. -/
def radarLoop (env : Nat → Nat → RadarMonth) :
    List (Nat × Nat) → List RadarRecord
  | [] => []
  | ym :: rest =>
      (if (env ym.1 ym.2).size = 0 then []
       else [⟨ym.1, ym.2, (env ym.1 ym.2).dateSelected,
             CloudCell.num 0, (env ym.1 ym.2).areaKm2⟩])
      ++ radarLoop env rest

/-!  The rainfall pipeline (LakeTana-Rainfall-CHIRPS.py).  The loop body
appends a record for every month unconditionally, holding a lazy remote
handle for the monthly precipitation sum; after the loop, get_value
resolves each handle, returning None when the remote request raises
(bare except).  The composition is a map over the month pairs. -/

/-- One resolved output row of the rainfall script; totalMm is none when
get_value caught an exception for this month. -/
structure RainRecord where
  year : Nat
  month : Nat
  totalMm : Option ℚ
deriving DecidableEq

/-- The rainfall main loop composed with the get_value resolution pass:
one record per requested month, no month is ever skipped; a failed
retrieval leaves none in the value column. -/
def rainResults (fetch : Nat → Nat → Except Unit ℚ) (pairs : List (Nat × Nat)) :
    List RainRecord :=
  pairs.map fun ym => ⟨ym.1, ym.2, (fetch ym.1 ym.2).toOption⟩

/-!  The climate pipeline (LakeTana-Temperature-and-Humidity.py).  Per
month and per variable, the try block computes min, max and mean,
converts units and appends the record; the except branch appends a
record with Min, Max and Mean all None. -/

/-- One output row of the climate script. -/
structure ClimateRecord where
  year : Nat
  month : Nat
  varName : String
  minVal : Option ℚ
  maxVal : Option ℚ
  meanVal : Option ℚ
deriving DecidableEq

/-- The per-variable body: on success the converted (min, max, mean)
triple is recorded; on any exception (remote failure, or a None value
reaching the conversion or the format string) the except branch appends
the all-None record for that (year, month, variable). -/
def climateVariable (envC : Nat → Nat → String → Except Unit (ℚ × ℚ × ℚ))
    (y m : Nat) (v : String) : ClimateRecord :=
  match envC y m v with
  | Except.ok t => ⟨y, m, v, some t.1, some t.2.1, some t.2.2⟩
  | Except.error _ => ⟨y, m, v, none, none, none⟩

/-- The climate main loop: for each (year, month), one appended record
per variable in order. -/
def climateLoop (envC : Nat → Nat → String → Except Unit (ℚ × ℚ × ℚ))
    (vars : List String) : List (Nat × Nat) → List ClimateRecord
  | [] => []
  | ym :: rest =>
      vars.map (climateVariable envC ym.1 ym.2) ++ climateLoop envC vars rest

/-!  The hybrid month body after fusion (LakeTana-by-HybridFusion-...py):
area reduction of the final mask and the appended record. -/

/-- One output row of the hybrid fusion script. -/
structure HybridRecord where
  year : Nat
  month : Nat
  dateSelected : String
  cloudCover : CloudCell
  areaKm2 : ℚ
  sourceUsed : SourceUsed

/-- The Cloud Cover Percentage cell of the hybrid record:
round(cloud_pct, 2) if cloud_pct else N/A — Python truthiness makes both
None and the number 0 fall to the N/A branch. -/
def hybridCloudCell : Option ℚ → CloudCell
  | none => CloudCell.na
  | some q => if q = 0 then CloudCell.na else CloudCell.num (round2 q)

/-- The hybrid loop body for one month, given the fusion inputs and an
area evaluator (none models the except branch around the area getInfo):
resolve the source, reduce the final mask to km2, and build the record;
the date cell falls back to the literal Radar only when no optical
image was selected. -/
def hybridMonth (y m : Nat) (om : Option Mask) (cp : Option ℚ)
    (s2date : Option String) (rm : Option Mask)
    (areaOf : Mask → Option ℚ) : Option HybridRecord :=
  match fusionResolve om cp rm with
  | none => none
  | some fs =>
      match areaOf fs.1 with
      | none => none
      | some a =>
          some ⟨y, m, (match s2date with | some d => d | none => "Radar only"),
                hybridCloudCell cp, round2 a, fs.2⟩

/-!  Composite methods (claim C5).  Each pipeline requests one temporal
composite of the filtered monthly collection from the service; the
request made by each script is recorded here, together with executable
semantics for the methods needed to separate them. -/

/-- The compositing method a script requests from the service. -/
inductive CompositeMethod where
  | medianOf
  | mosaicOf
  | firstByCloud
  | sumOf
deriving DecidableEq

/-- A composite request: the method and whether the resulting raster is
restricted (clipped) to the study geometry. -/
structure CompositeSpec where
  method : CompositeMethod
  clipped : Bool
deriving DecidableEq

/-- s2.median().clip(roi) — LakeTana-NDVI-FAI-Sentinel.py (and the same
construct in the three Landsat scripts, the FAI-NDVI-SWIR Sentinel
script and the export script). -/
def s2NdviFaiComposite : CompositeSpec := ⟨CompositeMethod.medianOf, true⟩

/-- median_img = filtered.median() — LakeTana-Radar-Sentinel-1.py; no
clip is applied to the composite. -/
def radarComposite : CompositeSpec := ⟨CompositeMethod.medianOf, false⟩

/-- img = s2.sort(CLOUDY_PIXEL_PERCENTAGE).first() — the optical branch
of the hybrid script selects the least-cloudy single image (the
collection members were clipped by map(clip)). -/
def hybridOpticalComposite : CompositeSpec := ⟨CompositeMethod.firstByCloud, true⟩

/-- img = s1.mosaic() — the radar branch of the hybrid script. -/
def hybridRadarComposite : CompositeSpec := ⟨CompositeMethod.mosaicOf, false⟩

/-- filtered.select(precipitation).sum() — LakeTana-Rainfall-CHIRPS.py. -/
def rainfallComposite : CompositeSpec := ⟨CompositeMethod.sumOf, false⟩

/-- A single-band image with its cloud attribute, for the executable
semantics of the composite methods. -/
structure EEImage where
  cloudy : ℚ
  px : Nat → ℚ

/-- The median of a list of rationals as the service computes it per
pixel: middle element of the sorted values, mean of the two middle
elements for an even count. -/
def listMedian (l : List ℚ) : ℚ :=
  let s := l.insertionSort (fun a b => a ≤ b)
  if s.length % 2 = 1 then s.getD (s.length / 2) 0
  else (s.getD (s.length / 2 - 1) 0 + s.getD (s.length / 2) 0) / 2

/-- collection.median(): the pixelwise median composite. -/
def medianComposite (imgs : List EEImage) (p : Nat) : ℚ :=
  listMedian (imgs.map fun i => i.px p)

/-- collection.sort(CLOUDY_PIXEL_PERCENTAGE).first(): the earliest image
of minimal cloud attribute (a stable ascending sort followed by first). -/
def minCloudFirst (imgs : List EEImage) : Option EEImage :=
  imgs.foldl
    (fun acc i =>
      match acc with
      | none => some i
      | some a => if i.cloudy < a.cloudy then some i else some a)
    none

/-!  Concrete environments used by the witness and counterexample
theorems. -/

/-- The everywhere-false mask, a concrete mask value. -/
def mask0 : Mask := fun _ => false

/-- An environment whose every month has an empty filtered collection. -/
def envS2Empty : Nat → Nat → Except Unit MonthData :=
  fun _ _ => Except.ok ⟨0, 0, none⟩

/-- An environment whose every month raises a remote failure. -/
def envS2Fail : Nat → Nat → Except Unit MonthData :=
  fun _ _ => Except.error ()

/-- A radar environment with empty collections everywhere. -/
def envRadarEmpty : Nat → Nat → RadarMonth := fun _ _ => ⟨0, "", 0⟩

/-- A radar environment with a three-image collection everywhere. -/
def envRadarOne : Nat → Nat → RadarMonth :=
  fun _ _ => ⟨3, "2020-10-05", 7⟩

/-- A rainfall retrieval that fails exactly for October 2020. -/
def envRainFail : Nat → Nat → Except Unit ℚ :=
  fun y m => if y = 2020 ∧ m = 10 then Except.error () else Except.ok 5

/-- A climate environment whose every request raises. -/
def envClimFail : Nat → Nat → String → Except Unit (ℚ × ℚ × ℚ) :=
  fun _ _ _ => Except.error ()

/-- A two-image collection separating the median composite from the
least-cloudy-first composite: pixel values 10 (cloud 50) and 0
(cloud 5). -/
def twoImgs : List EEImage := [⟨50, fun _ => 10⟩, ⟨5, fun _ => 0⟩]

/-!  Helper lemmas, shared by several claim proofs. -/

/-- The Sentinel main loop distributes over list append. -/
theorem s2Loop_append (env : Nat → Nat → Except Unit MonthData)
    (xs ys : List (Nat × Nat)) :
    s2Loop env (xs ++ ys) = s2Loop env xs ++ s2Loop env ys := by
  induction xs with
  | nil => simp [s2Loop]
  | cons hd tl ih => simp [s2Loop, ih]

/-- The radar main loop distributes over list append. -/
theorem radarLoop_append (envR : Nat → Nat → RadarMonth)
    (xs ys : List (Nat × Nat)) :
    radarLoop envR (xs ++ ys) = radarLoop envR xs ++ radarLoop envR ys := by
  induction xs with
  | nil => simp [radarLoop]
  | cons hd tl ih => simp [radarLoop, ih]

/-- A record emitted by get_ndvi_fai_monthly_s2 carries the year and
month it was requested for. -/
theorem get_s2_fields (d : MonthData) (y m : Nat) (r : S2Record)
    (h : get_ndvi_fai_monthly_s2 d y m = some r) : r.year = y ∧ r.month = m := by
  unfold get_ndvi_fai_monthly_s2 at h
  by_cases hz : d.size = 0
  · simp [hz] at h
  · rcases hd : d.areaStat with _ | a <;> rw [hd] at h <;> simp [hz] at h
    rw [← h]
    exact ⟨rfl, rfl⟩

/-- Each (month, variable) pair of the climate loop contributes its
climateVariable record to the output. -/
theorem climateVariable_mem (envC : Nat → Nat → String → Except Unit (ℚ × ℚ × ℚ))
    (vars : List String) (pairs : List (Nat × Nat)) (y m : Nat) (v : String)
    (hmem : (y, m) ∈ pairs) (hvar : v ∈ vars) :
    climateVariable envC y m v ∈ climateLoop envC vars pairs := by
  induction pairs with
  | nil => cases hmem
  | cons hd tl ih =>
    rcases List.mem_cons.mp hmem with h | h
    · refine List.mem_append.mpr (Or.inl ?_)
      rw [← h]
      exact List.mem_map_of_mem _ hvar
    · exact List.mem_append.mpr (Or.inr (ih h))

/-!  Claim C1: monthly window boundaries. -/

/-- C1 counterexample: the claim says every window is the full calendar
month [first day, first day of next month).  But the Sentinel script
ends the April 2020 window at the hard-coded string 2020-04-28, not at
2020-05-01; it also hard-codes day 28 for February 2020 (a leap year);
and even the calendar-aware hybrid script ends December 2020 at
2020-12-31 (an exclusive bound), not at 2021-01-01. -/
theorem C1_counterexample :
    sentinelEndDate 2020 4 = "2020-04-28" ∧
    sentinelEndDate 2020 4 ≠ specNextPeriodStart 2020 4 ∧
    sentinelEndDate 2020 2 = "2020-02-28" ∧
    sentinelEndDate 2020 2 ≠ specNextPeriodStart 2020 2 ∧
    hybridEndDate 2020 12 = "2020-12-31" ∧
    hybridEndDate 2020 12 ≠ specNextPeriodStart 2020 12 := by
  refine ⟨by decide, by decide, by decide, by decide, by decide, by decide⟩

/-- C1 amended: in the two pipelines the claim cites, the window is not
the full calendar month — for every year and every month in 1..12, the
end bound the Sentinel script uses (the hard-coded day 28 for every
non-December month, day 31 for December) and the end bound the hybrid
script uses (the last calendar day of the month, leap-year aware:
February of year y has 29 days exactly when y is a leap year) both fall
strictly before the first day of the following month, so those
half-open filter windows omit at least the final day of their month.
The evapotranspiration script's window alone ends exactly at the first
day of the following month, matching the claimed full calendar
month. -/
theorem C1_amended (y m : Nat) (h1 : 1 ≤ m) (h2 : m ≤ 12) :
    Date.Lt (sentinelEndTriple y m) (nextPeriodStartTriple y m) ∧
    Date.Lt (hybridEndTriple y m) (nextPeriodStartTriple y m) ∧
    monthrangeDays y 2 = (if isleap y then 29 else 28) ∧
    (m ≠ 12 → sentinelEndTriple y m = ⟨y, m, 28⟩) ∧
    etWindowEndTriple y m = nextPeriodStartTriple y m := by
  clear h1 h2
  by_cases hm : m = 12 <;>
    simp [sentinelEndTriple, hybridEndTriple, nextPeriodStartTriple,
          etWindowEndTriple, Date.Lt, hm, monthrangeDays]

/-- C1 witness: the amended statement applied to April 2020. -/
theorem C1_witness :
    Date.Lt (sentinelEndTriple 2020 4) (nextPeriodStartTriple 2020 4) ∧
    Date.Lt (hybridEndTriple 2020 4) (nextPeriodStartTriple 2020 4) ∧
    monthrangeDays 2020 2 = (if isleap 2020 then 29 else 28) ∧
    (4 ≠ 12 → sentinelEndTriple 2020 4 = ⟨2020, 4, 28⟩) ∧
    etWindowEndTriple 2020 4 = nextPeriodStartTriple 2020 4 :=
  C1_amended 2020 4 (by decide) (by decide)

/-!  Claim C2: hybrid fusion precedence. -/

/-- C2 counterexample: the claim makes the hybrid label require BOTH
masks; but with an optical mask, quality 10 (acceptable) and NO radar
mask, the code still labels the month Hybrid, where the claimed
precedence rule would resolve to optical only. -/
theorem C2_counterexample :
    (fusionResolve (some mask0) (some 10) none).map Prod.snd
      = some SourceUsed.hybridOR ∧
    (specResolve (some mask0) (some 10) none).map Prod.snd
      = some SourceUsed.opticalOnly ∧
    SourceUsed.hybridOR ≠ SourceUsed.opticalOnly := by
  refine ⟨by decide, by decide, by decide⟩

/-- C2 amended: the code labels a month Hybrid exactly when an optical
mask exists and the cloud metric exists and is below 30 — the radar
mask is not required (it is unioned into the final mask only when
present); otherwise the month is radar only when a radar mask exists,
optical only when only the optical mask exists, and skipped when
neither exists.  In particular optical quality 45 with both masks
present still resolves to radar only, as the claim states. -/
theorem C2_amended (om : Option Mask) (cp : Option ℚ) (rm : Option Mask) :
    ((fusionResolve om cp rm).map Prod.snd = some SourceUsed.hybridOR ↔
      om.isSome = true ∧ ∃ c, cp = some c ∧ c < 30) ∧
    (cp = some 45 → om.isSome = true → rm.isSome = true →
      (fusionResolve om cp rm).map Prod.snd = some SourceUsed.radarOnly) ∧
    (fusionResolve om cp rm = none ↔ om = none ∧ rm = none) := by
  rcases om with _ | o <;> rcases cp with _ | c <;> rcases rm with _ | r <;>
    simp [fusionResolve] <;> by_cases hc : c < 30 <;> simp [hc] <;>
    intro h <;> simp [h] at hc <;> norm_num at hc

/-- C2 witness: the amended statement applied to the scenario with both
masks present and quality 45, resolving to radar only. -/
theorem C2_witness :
    (fusionResolve (some mask0) (some (45 : ℚ)) (some mask0)).map Prod.snd
      = some SourceUsed.radarOnly :=
  (C2_amended (some mask0) (some 45) (some mask0)).2.1 rfl rfl rfl

/-!  Claim C3: an empty filtered collection yields no record and the
run continues. -/

/-- C3: when the filtered collection of a month is empty,
get_ndvi_fai_monthly_s2 returns none so no record is emitted for it,
the Sentinel main loop output over any surrounding months is exactly
the output over those months alone (the run continues), and likewise
the radar main loop skips the empty month and continues. -/
theorem C3_empty_month_skipped
    (env : Nat → Nat → Except Unit MonthData) (envR : Nat → Nat → RadarMonth)
    (pre post preR postR : List (Nat × Nat)) (y m : Nat) (d : MonthData)
    (hok : env y m = Except.ok d) (hsize : d.size = 0)
    (hsizeR : (envR y m).size = 0) :
    get_ndvi_fai_monthly_s2 d y m = none ∧
    s2Loop env (pre ++ (y, m) :: post) = s2Loop env pre ++ s2Loop env post ∧
    radarLoop envR (preR ++ (y, m) :: postR)
      = radarLoop envR preR ++ radarLoop envR postR := by
  have hnone : get_ndvi_fai_monthly_s2 d y m = none := by
    simp [get_ndvi_fai_monthly_s2, hsize]
  refine ⟨hnone, ?_, ?_⟩
  · rw [s2Loop_append]
    have : s2Loop env ((y, m) :: post) = s2Loop env post := by
      simp [s2Loop, hok, hnone]
    rw [this]
  · rw [radarLoop_append]
    have : radarLoop envR ((y, m) :: postR) = radarLoop envR postR := by
      simp [radarLoop, hsizeR]
    rw [this]

/-- C3 witness: the statement applied to October 2020 under
environments whose collections are all empty. -/
theorem C3_witness :
    get_ndvi_fai_monthly_s2 ⟨0, 0, none⟩ 2020 10 = none ∧
    s2Loop envS2Empty ([(2020, 11)] ++ (2020, 10) :: [(2020, 12)])
      = s2Loop envS2Empty [(2020, 11)] ++ s2Loop envS2Empty [(2020, 12)] ∧
    radarLoop envRadarEmpty ([] ++ (2020, 10) :: [])
      = radarLoop envRadarEmpty [] ++ radarLoop envRadarEmpty [] :=
  C3_empty_month_skipped envS2Empty envRadarEmpty
    [(2020, 11)] [(2020, 12)] [] [] 2020 10 ⟨0, 0, none⟩ rfl rfl rfl

/-!  Claim C4: per-month failure handling. -/

/-- C4 counterexample: the claim says a remote failure leaves NO record
for the failed month in every pipeline.  In the CHIRPS rainfall
pipeline, a retrieval that fails for October 2020 still leaves a record
for October 2020 in the result table — with a null value — because the
loop appends a row for every month before any remote value is
resolved. -/
theorem C4_counterexample :
    envRainFail 2020 10 = Except.error () ∧
    rainResults envRainFail [(2020, 10), (2020, 11)]
      = [⟨2020, 10, none⟩, ⟨2020, 11, some 5⟩] ∧
    (⟨2020, 10, none⟩ : RainRecord) ∈
      rainResults envRainFail [(2020, 10), (2020, 11)] := by
  refine ⟨rfl, by decide, by decide⟩

/-- C4 amended: in the Sentinel NDVI+FAI pipeline the claim holds — a
month whose remote requests raise is caught by the per-month
try/except, no record is emitted for it, and the surrounding months are
processed unchanged.  The rainfall pipeline instead appends exactly one
record per requested month unconditionally, and a failed retrieval is
caught per record and stored as a null value in that record — the month
is not skipped; in neither pipeline does a per-month failure abort the
run. -/
theorem C4_amended (env : Nat → Nat → Except Unit MonthData)
    (fetch : Nat → Nat → Except Unit ℚ)
    (pre post pairs : List (Nat × Nat)) (y m : Nat)
    (hfail : env y m = Except.error ())
    (hmem : (y, m) ∈ pairs) (hfetch : fetch y m = Except.error ()) :
    s2Loop env (pre ++ (y, m) :: post) = s2Loop env pre ++ s2Loop env post ∧
    (rainResults fetch pairs).length = pairs.length ∧
    (⟨y, m, none⟩ : RainRecord) ∈ rainResults fetch pairs := by
  refine ⟨?_, ?_, ?_⟩
  · rw [s2Loop_append]
    have : s2Loop env ((y, m) :: post) = s2Loop env post := by
      simp [s2Loop, hfail]
    rw [this]
  · simp [rainResults]
  · have : (⟨y, m, none⟩ : RainRecord)
        = ⟨y, m, (fetch y m).toOption⟩ := by
      simp [hfetch, Except.toOption]
    rw [this, rainResults]
    exact List.mem_map_of_mem _ hmem

/-- C4 witness: the amended statement applied to October 2020 with a
failing Sentinel environment and the failing rainfall retrieval. -/
theorem C4_witness :
    s2Loop envS2Fail ([(2020, 11)] ++ (2020, 10) :: [(2020, 12)])
      = s2Loop envS2Fail [(2020, 11)] ++ s2Loop envS2Fail [(2020, 12)] ∧
    (rainResults envRainFail [(2020, 10), (2020, 11)]).length
      = [(2020, 10), (2020, 11)].length ∧
    (⟨2020, 10, none⟩ : RainRecord) ∈
      rainResults envRainFail [(2020, 10), (2020, 11)] :=
  C4_amended envS2Fail envRainFail [(2020, 11)] [(2020, 12)]
    [(2020, 10), (2020, 11)] 2020 10 rfl (by decide) rfl

/-!  Claim C5: compositing method of each pipeline variant. -/

/-- C5 counterexample: the claim says every pipeline variant composites
with median, clipped to the geometry.  But the hybrid script requests
the least-cloudy single image for its optical branch and a mosaic for
its radar branch, and the standalone radar script does not clip its
median composite; on a concrete two-image collection the least-cloudy
selection (pixel value 0) differs from the pixelwise median (5). -/
theorem C5_counterexample :
    hybridOpticalComposite.method ≠ CompositeMethod.medianOf ∧
    hybridRadarComposite.method ≠ CompositeMethod.medianOf ∧
    radarComposite.clipped = false ∧
    medianComposite twoImgs 0 = 5 ∧
    (minCloudFirst twoImgs).map (fun i => i.px 0) = some 0 ∧
    (5 : ℚ) ≠ 0 := by
  refine ⟨by decide, by decide, rfl, ?_, ?_, by norm_num⟩
  · norm_num [medianComposite, twoImgs, listMedian,
      List.insertionSort, List.orderedInsert]
  · norm_num [minCloudFirst, twoImgs, List.foldl]

/-- C5 amended: the Sentinel NDVI+FAI script (and the Landsat and
FAI-NDVI-SWIR scripts) composite with median clipped to the geometry,
and the standalone radar script composites with median but without a
clip; the hybrid script instead selects the least-cloudy single optical
image and a radar mosaic, and the rainfall script composites with a
sum.  On a one-image collection the median composite and the
least-cloudy selection coincide with that image. -/
theorem C5_amended :
    s2NdviFaiComposite = ⟨CompositeMethod.medianOf, true⟩ ∧
    radarComposite = ⟨CompositeMethod.medianOf, false⟩ ∧
    hybridOpticalComposite = ⟨CompositeMethod.firstByCloud, true⟩ ∧
    hybridRadarComposite = ⟨CompositeMethod.mosaicOf, false⟩ ∧
    rainfallComposite = ⟨CompositeMethod.sumOf, false⟩ ∧
    ∀ (i : EEImage) (p : Nat),
      medianComposite [i] p = i.px p ∧ minCloudFirst [i] = some i := by
  refine ⟨rfl, rfl, rfl, rfl, rfl, fun i p => ⟨?_, rfl⟩⟩
  simp [medianComposite, listMedian, List.insertionSort]

/-!  Claim C6: record uniqueness and omission of no-data months. -/

/-- C6 counterexample: the claim says a month with no valid underlying
data is never appended as a null-valued record.  But the climate
script, when processing a variable of October 2020 fails, appends a
record whose Min, Max and Mean are all null. -/
theorem C6_counterexample :
    climateLoop envClimFail ["Temperature Max"] [(2020, 10)]
      = [⟨2020, 10, "Temperature Max", none, none, none⟩] ∧
    (⟨2020, 10, "Temperature Max", none, none, none⟩ : ClimateRecord) ∈
      climateLoop envClimFail ["Temperature Max"] [(2020, 10)] := by
  refine ⟨by decide, by decide⟩

/-- C6 amended: in the Sentinel NDVI+FAI pipeline the claim holds — a
month whose area reduction yields no value produces no record, and the
output never holds more records for a (year, month) than the request
list holds occurrences of that pair (at most one for a duplicate-free
request list).  The rainfall and climate pipelines violate the omission
half: the climate loop appends an all-null record for every failed
(month, variable) request. -/
theorem C6_amended (env : Nat → Nat → Except Unit MonthData)
    (envC : Nat → Nat → String → Except Unit (ℚ × ℚ × ℚ))
    (pairs : List (Nat × Nat)) (vars : List String)
    (y m : Nat) (v : String) (d : MonthData)
    (hnostat : d.areaStat = none)
    (hmem : (y, m) ∈ pairs) (hvar : v ∈ vars)
    (hfail : envC y m v = Except.error ()) :
    get_ndvi_fai_monthly_s2 d y m = none ∧
    (s2Loop env pairs).countP (fun r => r.year == y && r.month == m)
      ≤ pairs.count (y, m) ∧
    (⟨y, m, v, none, none, none⟩ : ClimateRecord)
      ∈ climateLoop envC vars pairs := by
  refine ⟨?_, ?_, ?_⟩
  · unfold get_ndvi_fai_monthly_s2
    by_cases hz : d.size = 0 <;> simp [hz, hnostat]
  · clear hmem
    induction pairs with
    | nil => simp [s2Loop]
    | cons hd tl ih =>
      rcases henv : env hd.1 hd.2 with _ | dd
      · simp only [s2Loop, henv, List.nil_append, List.count_cons]
        exact le_trans ih (Nat.le_add_right _ _)
      · simp only [s2Loop, henv]
        rcases hg : get_ndvi_fai_monthly_s2 dd hd.1 hd.2 with _ | r
        · simp only [hg, Option.toList_none, List.nil_append, List.count_cons]
          exact le_trans ih (Nat.le_add_right _ _)
        · have hf := get_s2_fields dd hd.1 hd.2 r hg
          simp only [hg, Option.toList_some, List.singleton_append,
            List.countP_cons, List.count_cons]
          by_cases hp : (r.year == y && r.month == m) = true
          · simp only [Bool.and_eq_true, beq_iff_eq] at hp
            have hyd : (hd == (y, m)) = true := by
              rw [beq_iff_eq, Prod.ext_iff]
              exact ⟨by rw [← hf.1, hp.1], by rw [← hf.2, hp.2]⟩
            simp [hp.1, hp.2, hyd]
            omega
          · rw [Bool.not_eq_true] at hp
            simp [hp]
            exact le_trans ih (Nat.le_add_right _ _)
  · have : (⟨y, m, v, none, none, none⟩ : ClimateRecord)
        = climateVariable envC y m v := by
      simp [climateVariable, hfail]
    rw [this]
    exact climateVariable_mem envC vars pairs y m v hmem hvar

/-- C6 witness: the amended statement applied to October 2020 with the
empty-collection Sentinel environment and the failing climate
environment. -/
theorem C6_witness :
    get_ndvi_fai_monthly_s2 ⟨0, 0, none⟩ 2020 10 = none ∧
    (s2Loop envS2Empty [(2020, 10)]).countP
      (fun r => r.year == 2020 && r.month == 10)
      ≤ [(2020, 10)].count (2020, 10) ∧
    (⟨2020, 10, "Temperature Min", none, none, none⟩ : ClimateRecord)
      ∈ climateLoop envClimFail ["Temperature Min"] [(2020, 10)] :=
  C6_amended envS2Empty envClimFail [(2020, 10)] ["Temperature Min"]
    2020 10 "Temperature Min" ⟨0, 0, none⟩ rfl (by decide) (by decide) rfl

/-!  Claim C7: range of the NDVI operation. -/

/-- C7: for valid (nonnegative reflectance) inputs with a nonzero
denominator, the NDVI value exists and lies in the closed interval
[-1, 1]; when nir + red = 0 the operation yields no-data instead of a
value. -/
theorem C7_ndvi_bounded (nir red : ℚ) (h1 : 0 ≤ nir) (h2 : 0 ≤ red) :
    (nir + red ≠ 0 → ∃ v, ndvi nir red = some v ∧ -1 ≤ v ∧ v ≤ 1) ∧
    (nir + red = 0 → ndvi nir red = none) := by
  constructor
  · intro h3
    have hpos : 0 < nir + red := lt_of_le_of_ne (add_nonneg h1 h2) (Ne.symm h3)
    refine ⟨(nir - red) / (nir + red), by simp [ndvi, h3], ?_, ?_⟩
    · rw [le_div_iff hpos]
      linarith
    · rw [div_le_one hpos]
      linarith
  · intro h3
    simp [ndvi, h3]

/-- C7 witness: the statement applied to nir = 3, red = 1. -/
theorem C7_witness :
    ((3 : ℚ) + 1 ≠ 0 → ∃ v, ndvi 3 1 = some v ∧ -1 ≤ v ∧ v ≤ 1) ∧
    ((3 : ℚ) + 1 = 0 → ndvi 3 1 = none) :=
  C7_ndvi_bounded 3 1 (by norm_num) (by norm_num)

/-!  Claim C8: algebraic structure of the FAI operation. -/

/-- C8: for any fixed wavelength constants, fai is a linear map of the
band triple (nir, red, swir), and it vanishes whenever the three bands
are equal. -/
theorem C8_fai_linear (rw nw sw : ℚ) :
    IsLinearMap ℚ (faiBands rw nw sw) ∧
    ∀ v : ℚ, faiBands rw nw sw (v, v, v) = 0 := by
  constructor
  · constructor
    · rintro ⟨x1, x2, x3⟩ ⟨y1, y2, y3⟩
      simp only [faiBands, fai, Prod.mk_add_mk]
      ring
    · rintro a ⟨x1, x2, x3⟩
      simp only [faiBands, fai, Prod.smul_mk, smul_eq_mul]
      ring
  · intro v
    simp only [faiBands, fai]
    ring

/-!  Claim C9: the quality field of the standalone radar pipeline. -/

/-- C9 counterexample: the claim says every emitted radar record
reports its quality field as N/A.  The radar script instead sets
cloud_cover = 0 and so a non-empty October 2020 emits a record whose
Cloud Cover Percentage cell holds the number 0, which is not the N/A
cell. -/
theorem C9_counterexample :
    radarLoop envRadarOne [(2020, 10)]
      = [⟨2020, 10, "2020-10-05", CloudCell.num 0, 7⟩] ∧
    CloudCell.num 0 ≠ CloudCell.na := by
  refine ⟨by decide, by decide⟩

/-- C9 amended: the standalone radar pipeline does skip the quality
request (Sentinel-1 has no cloud metric), but every record it emits
carries the numeric constant 0 in the quality field, not N/A; it is the
hybrid pipeline that writes the N/A cell when no optical cloud value
exists. -/
theorem C9_amended (envR : Nat → Nat → RadarMonth) (pairs : List (Nat × Nat)) :
    (∀ r ∈ radarLoop envR pairs, r.cloudCover = CloudCell.num 0) ∧
    hybridCloudCell none = CloudCell.na := by
  refine ⟨?_, rfl⟩
  induction pairs with
  | nil => intro r hr; cases hr
  | cons hd tl ih =>
    intro r hr
    rw [radarLoop] at hr
    rcases List.mem_append.mp hr with h | h
    · by_cases hz : (envR hd.1 hd.2).size = 0
      · rw [if_pos hz] at h
        cases h
      · rw [if_neg hz] at h
        rcases List.mem_singleton.mp h with rfl
        rfl
    · exact ih r h

/-- C9 witness: the amended statement applied to the record October
2020 emits under the three-image radar environment. -/
theorem C9_witness :
    (⟨2020, 10, "2020-10-05", CloudCell.num 0, 7⟩ : RadarRecord).cloudCover
      = CloudCell.num 0 ∧
    hybridCloudCell none = CloudCell.na :=
  ⟨(C9_amended envRadarOne [(2020, 10)]).1 _ (by decide),
   (C9_amended envRadarOne [(2020, 10)]).2⟩

/-!  Claim C10: zero cloud cover is exported as N/A in the hybrid
pipeline. -/

/-- C10: in the hybrid pipeline, a month whose selected optical image
has cloud cover exactly 0 is exported — the month is processed as an
optical month, its date cell is the optical date — yet its Cloud Cover
Percentage cell is the N/A cell, because the Python truthiness test
treats 0.0 like a missing value; and a strictly positive cloud value is
exported as the rounded number, with N/A exported exactly for the zero
value among nonnegative cloud values. -/
theorem C10_zero_cloud_exported_na (y m : Nat) (o : Mask) (rm : Option Mask)
    (dstr : String) (areaOf : Mask → Option ℚ) (r : HybridRecord) (q : ℚ)
    (hr : hybridMonth y m (some o) (some 0) (some dstr) rm areaOf = some r)
    (hq : 0 < q) :
    r.cloudCover = CloudCell.na ∧ r.dateSelected = dstr ∧
    hybridCloudCell (some q) = CloudCell.num (round2 q) ∧
    (∀ c : ℚ, 0 ≤ c → (hybridCloudCell (some c) = CloudCell.na ↔ c = 0)) := by
  refine ⟨?_, ?_, ?_, ?_⟩
  · have : r.cloudCover = hybridCloudCell (some 0) := by
      unfold hybridMonth at hr
      split at hr
      · cases hr
      · split at hr
        · cases hr
        · cases hr
          rfl
    rw [this]
    simp [hybridCloudCell]
  · unfold hybridMonth at hr
    split at hr
    · cases hr
    · split at hr
      · cases hr
      · cases hr
        rfl
  · have : q ≠ 0 := ne_of_gt hq
    simp [hybridCloudCell, this]
  · intro c hc
    by_cases h0 : c = 0 <;> simp [hybridCloudCell, h0]

/-- C10 witness: the statement applied to a concrete optical month of
cloud cover 0 that resolves and reduces successfully. -/
theorem C10_witness :
    (⟨2019, 11, "2019-11-02", CloudCell.na, round2 2, SourceUsed.hybridOR⟩
        : HybridRecord).cloudCover = CloudCell.na ∧
    (⟨2019, 11, "2019-11-02", CloudCell.na, round2 2, SourceUsed.hybridOR⟩
        : HybridRecord).dateSelected = "2019-11-02" ∧
    hybridCloudCell (some 45) = CloudCell.num (round2 45) ∧
    (∀ c : ℚ, 0 ≤ c → (hybridCloudCell (some c) = CloudCell.na ↔ c = 0)) :=
  C10_zero_cloud_exported_na 2019 11 mask0 none "2019-11-02"
    (fun _ => some 2)
    ⟨2019, 11, "2019-11-02", CloudCell.na, round2 2, SourceUsed.hybridOR⟩
    45 (by norm_num [hybridMonth, fusionResolve, hybridCloudCell]) (by norm_num)

end LakeTana
